import Mathlib

set_option maxRecDepth 8192
set_option linter.unusedVariables false

/-!
Verification of the clinical triage scoring core of the `aura` backend
(`backend/clinical_scoring.py` and `backend/main.py`), shallowly embedded
in Lean 4.  Python floats are modelled as rationals (`ℚ`), Python dicts of
signs as association lists, and the opaque external collaborator (the
Mistral API call together with the JSON parse of its reply) as an explicit
outcome value fed to the orchestrator function.
-/

/-- Embeds `get_severity_level_from_score` from `backend/clinical_scoring.py`
(lines 73-87): maps a 0-100 clinical score to the `(severity_level, urgency)`
pair by a chain of lower-bound tests. -/
def get_severity_level_from_score (score_100 : ℚ) : String × String :=
  if 90 ≤ score_100 then ("Critical", "Immediate")
  else if 70 ≤ score_100 then ("High", "Urgent")
  else if 50 ≤ score_100 then ("Moderate", "Moderate")
  else if 30 ≤ score_100 then ("Low", "Low")
  else ("Non-urgent", "Non-urgent")

/-- The result record of `get_triage_category` (a Python dict with the three
keys `category`, `urgency`, `action`). -/
structure TriageCategoryResult where
  category : String
  urgency : String
  action : String
deriving DecidableEq, Repr

/-- Embeds `get_triage_category` from `backend/clinical_scoring.py`
(lines 89-117).  Note the source has only four branches: every score
below 50 falls into the single final `Non urgent` branch. -/
def get_triage_category (score_100 : ℚ) : TriageCategoryResult :=
  if 90 ≤ score_100 then
    { category := "Urgence vitale", urgency := "Immediate",
      action := "Réanimation immédiate, appel SAMU/réanimation" }
  else if 70 ≤ score_100 then
    { category := "Urgence majeure", urgency := "Urgent",
      action := "Hospitalisation en unité de soins continus" }
  else if 50 ≤ score_100 then
    { category := "Urgence relative", urgency := "Moderate",
      action := "Consultation en urgence (< 2h)" }
  else
    { category := "Non urgent", urgency := "Low",
      action := "Consultation programmée ou retour à domicile" }

/-- Embeds `CARDIOVASCULAR_SIGNS` from `backend/clinical_scoring.py` (lines
7-18), a Python dict modelled as an association list in insertion order. -/
def CARDIOVASCULAR_SIGNS : List (String × ℕ) :=
  [("arrêt_cardiaque", 100),
   ("choc_cardiogénique", 95),
   ("tachycardie_extrême", 90),
   ("bradycardie_sévère", 85),
   ("cyanose_centrale", 80),
   ("pouls_filants", 75),
   ("douleur_thoracique_dyspnée", 70),
   ("hypertension_sévère", 65),
   ("souffle_cardiaque_pathologique", 60),
   ("œdème_poumon_aigu", 85)]

/-- Embeds `RESPIRATORY_SIGNS` (lines 21-31). -/
def RESPIRATORY_SIGNS : List (String × ℕ) :=
  [("apnée", 95),
   ("détresse_respiratoire_sévère", 90),
   ("tirage_intercostal", 85),
   ("cyanose", 80),
   ("stridor_inspiratoire", 75),
   ("toux_coqueluchoïde", 70),
   ("wheezing_diffus", 65),
   ("fréquence_respiratoire_élevée", 60),
   ("expectoration_sanglante", 80)]

/-- Embeds `NEUROLOGICAL_SIGNS` (lines 34-42). -/
def NEUROLOGICAL_SIGNS : List (String × ℕ) :=
  [("coma", 100),
   ("convulsions_prolongées", 95),
   ("raideur_nuque", 90),
   ("déficit_moteur_brutal", 85),
   ("céphalées_vomissements_jet", 80),
   ("troubles_conscience", 75),
   ("mouvements_anormaux", 70)]

/-- Embeds `DIGESTIVE_SIGNS` (lines 45-51). -/
def DIGESTIVE_SIGNS : List (String × ℕ) :=
  [("hémorragie_digestive_haute", 90),
   ("occlusion_intestinale", 85),
   ("péritonite", 80),
   ("déshydratation_sévère", 75),
   ("diarrhée_sanglante", 70)]

/-- Embeds `GENERAL_SIGNS` (lines 54-62). -/
def GENERAL_SIGNS : List (String × ℕ) :=
  [("marbrures", 85),
   ("refus_boire_alimentaire", 90),
   ("fièvre_élevée", 80),
   ("hypothermie", 75),
   ("signes_choc", 90),
   ("oligurie", 80),
   ("altération_état_général", 70)]

/-- Python dict insertion (a single key-value assignment during a dict
merge): if the key is already present its value is overwritten in place,
otherwise the pair is appended at the end. -/
def dictInsert (d : List (String × ℕ)) (k : String) (v : ℕ) : List (String × ℕ) :=
  if d.any (fun p => p.1 = k) then
    d.map (fun p => if p.1 = k then (k, v) else p)
  else d ++ [(k, v)]

/-- Python dict-unpacking merge `{**d, **e}`: the entries of `e` are written
into `d` one by one, later entries silently shadowing earlier ones. -/
def dictUpdate (d e : List (String × ℕ)) : List (String × ℕ) :=
  e.foldl (fun acc p => dictInsert acc p.1 p.2) d

/-- Python dict lookup returning the value of the first (unique) matching
key, or `none` when the key is absent. -/
def dictLookup (d : List (String × ℕ)) (k : String) : Option ℕ :=
  (d.find? (fun p => p.1 = k)).map (fun p => p.2)

/-- Embeds `ALL_CLINICAL_SIGNS` (lines 65-71): the later-wins merge
`{**CARDIOVASCULAR_SIGNS, **RESPIRATORY_SIGNS, **NEUROLOGICAL_SIGNS,
**DIGESTIVE_SIGNS, **GENERAL_SIGNS}`. -/
def ALL_CLINICAL_SIGNS : List (String × ℕ) :=
  dictUpdate (dictUpdate (dictUpdate (dictUpdate
    CARDIOVASCULAR_SIGNS RESPIRATORY_SIGNS) NEUROLOGICAL_SIGNS)
    DIGESTIVE_SIGNS) GENERAL_SIGNS

/-- The five per-system tables concatenated, used to state global
uniqueness and weight-range facts about the registry. -/
def allSignTables : List (String × ℕ) :=
  CARDIOVASCULAR_SIGNS ++ RESPIRATORY_SIGNS ++ NEUROLOGICAL_SIGNS ++
    DIGESTIVE_SIGNS ++ GENERAL_SIGNS

/-- Embeds the age-group selection of `get_clinical_scoring_guidelines`
(`backend/clinical_scoring.py` line 123):
`"pédiatrique" if patient_age and patient_age < 18 else "adulte"`.
Python truthiness makes both `None` and `0` falsy, so an age of `0`
selects the adult branch. -/
def clinical_age_group (patient_age : Option Int) : String :=
  match patient_age with
  | none => "adulte"
  | some a => if a ≠ 0 ∧ a < 18 then "pédiatrique" else "adulte"

/-- Models Python `str.upper()` on the two values `clinical_age_group` can
produce (Python uppercases the accented character as well). -/
def pythonUpper : String → String
  | "pédiatrique" => "PÉDIATRIQUE"
  | "adulte" => "ADULTE"
  | s => s

/-- Embeds `get_clinical_scoring_guidelines` (lines 119-194): renders the
guidelines text with the selected age group interpolated (uppercased) into
the header; the rest of the f-string is a fixed literal. -/
def get_clinical_scoring_guidelines (patient_age : Option Int) : String :=
  "\nSYSTÈME DE SCORING CLINIQUE (" ++
    pythonUpper (clinical_age_group patient_age) ++
  ")\nBasé sur ERC 2021, SFAR 2024, et algorithmes de triage français\n\nÉVALUATION PAR APPAREIL (Score 0-100 par signe):\n\n1. APPAREIL CARDIO-VASCULAIRE:\n   - Arrêt cardiaque: 100 (RCP immédiate)\n   - Choc cardiogénique: 95 (PA systolique < 60-70 mmHg, marbrures, oligurie)\n   - Tachycardie extrême: 90 (>220/min nourrisson, >180/min adulte)\n   - Bradycardie sévère: 85 (<60/min avec signes de bas débit)\n   - Cyanose centrale: 80 (SaO₂ < 85%)\n   - Pouls filants: 75 (signes de choc compensé)\n   - Douleur thoracique + dyspnée: 70 (suspicion ischémie)\n   - Hypertension sévère: 65 (PA > 99e percentile + signes neuro)\n   - Œdème aigu du poumon: 85\n\n2. APPAREIL RESPIRATOIRE:\n   - Apnée: 95 (pause >20 sec)\n   - Détresse respiratoire sévère: 90 (Silverman >8, SaO₂ <90%)\n   - Tirage intercostal/sous-costal: 85\n   - Cyanose: 80\n   - Stridor inspiratoire: 75 (épiglottite possible)\n   - Expectoration sanglante: 80\n   - Wheezing diffus: 65 (asthme sévère)\n   - Fréquence respiratoire élevée: 60 (>70/min nourrisson, >30/min adulte)\n\n3. APPAREIL NEUROLOGIQUE:\n   - Coma (Glasgow <8): 100\n   - Convulsions prolongées (>5 min): 95\n   - Raideur de nuque: 90 (méningite possible)\n   - Déficit moteur brutal: 85 (AVC, traumatisme)\n   - Céphalées + vomissements en jet: 80 (HTIC)\n   - Troubles de conscience: 75\n\n4. APPAREIL DIGESTIF:\n   - Hémorragie digestive haute: 90\n   - Occlusion intestinale: 85\n   - Péritonite: 80\n   - Déshydratation sévère: 75\n   - Diarrhée sanglante: 70\n\n5. SIGNES GÉNÉRAUX:\n   - Refus boire/alimentaire: 90 (surtout nourrisson)\n   - Marbrures: 85\n   - Signes de choc: 90\n   - Fièvre élevée + autres signes: 80 (>39°C)\n   - Oligurie: 80\n\nALGORITHME DE TRIAGE:\n- Score ≥90: Urgence vitale → Réanimation immédiate\n- Score 70-89: Urgence majeure → Hospitalisation soins continus\n- Score 50-69: Urgence relative → Consultation urgence (<2h)\n- Score <50: Non urgent → Consultation programmée\n\nCATÉGORISATION PAR SCORE (0-100):\n- Score 90-100 → Critical / Immediate (Urgence vitale)\n- Score 70-89 → High / Urgent (Urgence majeure)\n- Score 50-69 → Moderate / Moderate (Urgence relative)\n- Score 30-49 → Low / Low (Non urgent)\n- Score 0-29 → Non-urgent / Non-urgent (Non urgent)\n\nINSTRUCTIONS (CONCIS):\n1. Identifier TOUS les signes cliniques présents\n2. Assigner score 0-100 pour chaque signe selon tables\n3. Prendre SCORE MAXIMUM (pas moyenne) pour gravité\n4. Déterminer severity_level et urgency selon mapping score\n5. Justifier brièvement chaque signe dans reasoning (format structuré)\n"

/-- The response record of `backend/main.py` (`TriageResponse`, lines
41-48).  `severity_score` is the 0-100 clinical score. -/
structure TriageResponse where
  severity_score : ℚ
  severity_level : String
  triage_assessment : String
  recommended_service : String
  urgency : String
  reasoning : String
  model_used : String
deriving DecidableEq, Repr

/-- An uploaded file as seen by `process_multimodal_triage`: only its
declared content type and raw bytes matter to the orchestration logic. -/
structure FileUpload where
  content_type : Option String
  content : List ℕ
deriving DecidableEq, Repr

/-- Bool test that `needle` occurs as a contiguous substring of `hay`
(Python `needle in hay` on strings). -/
def strContains (hay needle : String) : Bool :=
  (List.range (hay.data.length + 1)).any
    (fun i => needle.data.isPrefixOf (hay.data.drop i))

/-- Embeds `determine_model` (`backend/main.py` lines 50-57). -/
def determine_model (input_type : String) : String :=
  if input_type = "image" then "pixtral-large-latest"
  else if input_type = "video" ∨ input_type = "audio" then "voxtral-large-latest"
  else "mistral-large-latest"

/-- Embeds the input-type determination of `process_multimodal_triage`
(lines 82-96): starts at `"text"` and is reassigned from the file's
declared content type, where Python `"image" in content_type` is substring
containment and a missing content type is replaced by `""`. -/
def input_type_of (file : Option FileUpload) : String :=
  match file with
  | none => "text"
  | some f =>
    let ct := f.content_type.getD ""
    if strContains ct "image" then "image"
    else if strContains ct "video" then "video"
    else if strContains ct "audio" then "audio"
    else "text"

/-- The candidate assessment parsed from the collaborator's JSON reply
(`triage_data` in lines 282-313): each field the code reads with
`triage_data.get(...)`, `none` when the key is absent. -/
structure TriageData where
  severity_score : Option ℚ
  severity_level : Option String
  urgency : Option String
  triage_assessment : Option String
  recommended_service : Option String
  reasoning : Option String
deriving DecidableEq, Repr

/-- Outcome of the opaque external call in the `try` block of
`process_multimodal_triage` (lines 249-331): `raise` is an exception from
the Mistral API (caught by `except Exception` and turned into an HTTP 500),
`respond` carries the stripped response text together with its JSON parse
(`none` models a `json.JSONDecodeError`). -/
inductive ApiOutcome where
  | raise (msg : String)
  | respond (response_text : String) (parsed : Option TriageData)
deriving DecidableEq, Repr

/-- Embeds the label reconciliation of `process_multimodal_triage` (lines
288-305): the authoritative pair is computed from the clamped score, then
overridden with the candidate's own labels only when they match the band
exactly. -/
def reconcile_labels (score : ℚ) (ai_level ai_urgency : String) : String × String :=
  let lu := get_severity_level_from_score score
  if 90 ≤ score ∧ ai_level = "Critical" ∧ ai_urgency = "Immediate" then
    (ai_level, ai_urgency)
  else if 70 ≤ score ∧ score < 90 ∧ ai_level = "High" ∧ ai_urgency = "Urgent" then
    (ai_level, ai_urgency)
  else if 50 ≤ score ∧ score < 70 ∧ ai_level = "Moderate" ∧ ai_urgency = "Moderate" then
    (ai_level, ai_urgency)
  else if 30 ≤ score ∧ score < 50 ∧ ai_level = "Low" ∧ ai_urgency = "Low" then
    (ai_level, ai_urgency)
  else if score < 30 ∧ ai_level = "Non-urgent" ∧ ai_urgency = "Non-urgent" then
    (ai_level, ai_urgency)
  else lu

/-- Embeds `process_multimodal_triage` (`backend/main.py` lines 59-331).
`mistral_client` records whether a Mistral client was configured; the
prompt assembly (lines 101-247) only feeds the opaque external call and is
not observable in the returned record, so it is not reproduced; `outcome`
is the result of that call.  `Except.error (500, msg)` models
`raise HTTPException(status_code=500, detail=msg)`. -/
def process_multimodal_triage
    (mistral_client : Bool)
    (text_input : Option String) (file : Option FileUpload)
    (patient_age : Option Int) (patient_gender : Option String)
    (vital_signs medical_history current_medications allergies : Option String)
    (outcome : ApiOutcome) : Except (ℕ × String) TriageResponse :=
  if !mistral_client then
    .ok { severity_score := 50, severity_level := "Moderate",
          triage_assessment := "AI model not configured. Please set MISTRAL_API_KEY environment variable.",
          recommended_service := "Emergency Department - General",
          urgency := "Moderate",
          reasoning := "System awaiting API key configuration",
          model_used := "none" }
  else
    let input_type := input_type_of file
    let model := determine_model input_type
    match outcome with
    | .raise e => .error (500, "Error calling Mistral API: " ++ e)
    | .respond response_text parsed =>
      match parsed with
      | none =>
        .ok { severity_score := 50, severity_level := "Moderate",
              triage_assessment := "Unable to parse AI response. Please review manually.",
              recommended_service := "Emergency Department - General",
              urgency := "Moderate",
              reasoning := if response_text ≠ "" then response_text.take 200
                           else "Error parsing response",
              model_used := model }
      | some triage_data =>
        let score := max 0 (min 100 (triage_data.severity_score.getD 50))
        let ai_level := triage_data.severity_level.getD ""
        let ai_urgency := triage_data.urgency.getD ""
        let lu := reconcile_labels score ai_level ai_urgency
        .ok { severity_score := score, severity_level := lu.1,
              triage_assessment := triage_data.triage_assessment.getD "Assessment completed",
              recommended_service := triage_data.recommended_service.getD "Emergency Department - General",
              urgency := lu.2,
              reasoning := triage_data.reasoning.getD "Assessment based on provided information",
              model_used := model }

/-! ### Helper lemmas about the band mapping and reconciliation -/

theorem gsl_of_ge_90 (m : ℚ) (h : 90 ≤ m) :
    get_severity_level_from_score m = ("Critical", "Immediate") := by
  unfold get_severity_level_from_score
  rw [if_pos h]

theorem gsl_of_70_90 (m : ℚ) (h70 : 70 ≤ m) (h90 : m < 90) :
    get_severity_level_from_score m = ("High", "Urgent") := by
  unfold get_severity_level_from_score
  rw [if_neg (not_le.mpr h90), if_pos h70]

theorem gsl_of_50_70 (m : ℚ) (h50 : 50 ≤ m) (h70 : m < 70) :
    get_severity_level_from_score m = ("Moderate", "Moderate") := by
  unfold get_severity_level_from_score
  rw [if_neg (not_le.mpr (by linarith)), if_neg (not_le.mpr h70), if_pos h50]

theorem gsl_of_30_50 (m : ℚ) (h30 : 30 ≤ m) (h50 : m < 50) :
    get_severity_level_from_score m = ("Low", "Low") := by
  unfold get_severity_level_from_score
  rw [if_neg (not_le.mpr (by linarith)), if_neg (not_le.mpr (by linarith)),
    if_neg (not_le.mpr h50), if_pos h30]

theorem gsl_of_lt_30 (m : ℚ) (h30 : m < 30) :
    get_severity_level_from_score m = ("Non-urgent", "Non-urgent") := by
  unfold get_severity_level_from_score
  rw [if_neg (not_le.mpr (by linarith)), if_neg (not_le.mpr (by linarith)),
    if_neg (not_le.mpr (by linarith)), if_neg (not_le.mpr h30)]

/-- The reconciliation chain of lines 288-305 always produces exactly the
authoritative pair of the score's band: each positive branch requires the
candidate's labels to equal that band's pair, and the final branch falls
back to `get_severity_level_from_score` itself. -/
theorem reconcile_labels_eq (score : ℚ) (ai_level ai_urgency : String) :
    reconcile_labels score ai_level ai_urgency =
      get_severity_level_from_score score := by
  unfold reconcile_labels
  split_ifs with h1 h2 h3 h4 h5
  · obtain ⟨h90, hl, hu⟩ := h1
    rw [gsl_of_ge_90 score h90, hl, hu]
  · obtain ⟨h70, h90, hl, hu⟩ := h2
    rw [gsl_of_70_90 score h70 h90, hl, hu]
  · obtain ⟨h50, h70, hl, hu⟩ := h3
    rw [gsl_of_50_70 score h50 h70, hl, hu]
  · obtain ⟨h30, h50, hl, hu⟩ := h4
    rw [gsl_of_30_50 score h30 h50, hl, hu]
  · obtain ⟨h30, hl, hu⟩ := h5
    rw [gsl_of_lt_30 score h30, hl, hu]
  · rfl

/-! ### Claim theorems -/

/-- Claim C1: for every response emitted by `process_multimodal_triage`
(whether reconciled, not-configured, or the unparseable fallback), the pair
`(severity_level, urgency)` of the returned `TriageResponse` is exactly the
pair dictated by the deterministic band of [0,100] containing the returned
`severity_score` (as computed by `get_severity_level_from_score`),
regardless of the labels the external collaborator proposed. -/
theorem C1_central_invariant (mistral_client : Bool)
    (text_input : Option String) (file : Option FileUpload)
    (patient_age : Option Int) (patient_gender : Option String)
    (vital_signs medical_history current_medications allergies : Option String)
    (outcome : ApiOutcome) (r : TriageResponse)
    (h : process_multimodal_triage mistral_client text_input file patient_age
          patient_gender vital_signs medical_history current_medications
          allergies outcome = .ok r) :
    (r.severity_level, r.urgency) = get_severity_level_from_score r.severity_score := by
  cases mistral_client with
  | false =>
    simp only [process_multimodal_triage, Bool.not_false, if_pos, Except.ok.injEq] at h
    subst h
    decide
  | true =>
    cases outcome with
    | raise e =>
      simp only [process_multimodal_triage, Bool.not_true, Bool.false_eq_true,
        if_false] at h
      exact absurd h (by simp)
    | respond response_text parsed =>
      cases parsed with
      | none =>
        simp only [process_multimodal_triage, Bool.not_true, Bool.false_eq_true,
          if_false, Except.ok.injEq] at h
        subst h
        show ("Moderate", "Moderate") = get_severity_level_from_score 50
        decide
      | some triage_data =>
        simp only [process_multimodal_triage, Bool.not_true, Bool.false_eq_true,
          if_false, Except.ok.injEq] at h
        subst h
        simp only [reconcile_labels_eq]

/-- The fixed response of the not-configured branch, used as the concrete
run in several witnesses. -/
def notConfiguredResponse : TriageResponse :=
  { severity_score := 50, severity_level := "Moderate",
    triage_assessment := "AI model not configured. Please set MISTRAL_API_KEY environment variable.",
    recommended_service := "Emergency Department - General",
    urgency := "Moderate",
    reasoning := "System awaiting API key configuration",
    model_used := "none" }

/-- Witness for C1 at a concrete run: the not-configured response of the
orchestrator satisfies the central invariant. -/
theorem C1_witness :
    (notConfiguredResponse.severity_level, notConfiguredResponse.urgency) =
      get_severity_level_from_score notConfiguredResponse.severity_score :=
  C1_central_invariant false none none none none none none none none
    (.raise "") notConfiguredResponse rfl

/-- Claim C2: for every magnitude m in [0,100],
`get_severity_level_from_score` returns exactly one of the five
(category, urgency) pairs, with band membership per the table
[90,100] -> (Critical, Immediate), [70,90) -> (High, Urgent),
[50,70) -> (Moderate, Moderate), [30,50) -> (Low, Low),
[0,30) -> (Non-urgent, Non-urgent); in particular each boundary value
falls in the lower-closed band containing it. -/
theorem C2_band_table (m : ℚ) (h0 : 0 ≤ m) (h1 : m ≤ 100) :
    (90 ≤ m → get_severity_level_from_score m = ("Critical", "Immediate")) ∧
    (70 ≤ m → m < 90 → get_severity_level_from_score m = ("High", "Urgent")) ∧
    (50 ≤ m → m < 70 → get_severity_level_from_score m = ("Moderate", "Moderate")) ∧
    (30 ≤ m → m < 50 → get_severity_level_from_score m = ("Low", "Low")) ∧
    (m < 30 → get_severity_level_from_score m = ("Non-urgent", "Non-urgent")) ∧
    get_severity_level_from_score m ∈
      [("Critical", "Immediate"), ("High", "Urgent"), ("Moderate", "Moderate"),
       ("Low", "Low"), ("Non-urgent", "Non-urgent")] := by
  refine ⟨gsl_of_ge_90 m, gsl_of_70_90 m, gsl_of_50_70 m, gsl_of_30_50 m,
    gsl_of_lt_30 m, ?_⟩
  unfold get_severity_level_from_score
  split_ifs <;> simp

/-- Witness for C2 at the boundary magnitude 90: it lies in [0,100] and
maps to the Critical / Immediate band. -/
theorem C2_witness :
    (0:ℚ) ≤ 90 ∧ (90:ℚ) ≤ 100 ∧
      ((90 ≤ (90:ℚ) → get_severity_level_from_score 90 = ("Critical", "Immediate")) ∧
       (70 ≤ (90:ℚ) → (90:ℚ) < 90 → get_severity_level_from_score 90 = ("High", "Urgent")) ∧
       (50 ≤ (90:ℚ) → (90:ℚ) < 70 → get_severity_level_from_score 90 = ("Moderate", "Moderate")) ∧
       (30 ≤ (90:ℚ) → (90:ℚ) < 50 → get_severity_level_from_score 90 = ("Low", "Low")) ∧
       ((90:ℚ) < 30 → get_severity_level_from_score 90 = ("Non-urgent", "Non-urgent")) ∧
       get_severity_level_from_score 90 ∈
         [("Critical", "Immediate"), ("High", "Urgent"), ("Moderate", "Moderate"),
          ("Low", "Low"), ("Non-urgent", "Non-urgent")]) :=
  ⟨by decide, by decide, C2_band_table 90 (by decide) (by decide)⟩

/-- Claim C3: in the reconciliation step, when the candidate's self-reported
labels exactly match the authoritative pair for the band of the clamped
candidate severity they are retained verbatim; when they disagree in any
way the authoritative pair computed by `get_severity_level_from_score` is
substituted; and the emitted numeric severity is exactly the clamp of the
candidate's value. -/
theorem C3_reconciliation_precedence
    (text_input : Option String) (file : Option FileUpload)
    (patient_age : Option Int) (patient_gender : Option String)
    (vital_signs medical_history current_medications allergies : Option String)
    (response_text : String) (td : TriageData) (r : TriageResponse)
    (h : process_multimodal_triage true text_input file patient_age
          patient_gender vital_signs medical_history current_medications
          allergies (.respond response_text (some td)) = .ok r) :
    r.severity_score = max 0 (min 100 (td.severity_score.getD 50)) ∧
    ((td.severity_level.getD "", td.urgency.getD "") =
        get_severity_level_from_score (max 0 (min 100 (td.severity_score.getD 50))) →
      (r.severity_level, r.urgency) = (td.severity_level.getD "", td.urgency.getD "")) ∧
    ((td.severity_level.getD "", td.urgency.getD "") ≠
        get_severity_level_from_score (max 0 (min 100 (td.severity_score.getD 50))) →
      (r.severity_level, r.urgency) =
        get_severity_level_from_score (max 0 (min 100 (td.severity_score.getD 50)))) := by
  simp only [process_multimodal_triage, Bool.not_true, Bool.false_eq_true,
    if_false, Except.ok.injEq] at h
  subst h
  refine ⟨rfl, ?_, ?_⟩
  · intro hmatch
    rw [show ∀ p : String × String, (p.1, p.2) = p from fun p => rfl,
      reconcile_labels_eq, ← hmatch]
  · intro _
    rw [show ∀ p : String × String, (p.1, p.2) = p from fun p => rfl,
      reconcile_labels_eq]

/-- Witness for C3 at a concrete agreeing candidate: severity 95 with
labels Critical / Immediate passes through. -/
theorem C3_witness :
    ((95:ℚ) = max 0 (min 100 ((Option.getD (some (95:ℚ)) 50))) ∧
      ((Option.getD (some "Critical") "", Option.getD (some "Immediate") "") =
          get_severity_level_from_score (max 0 (min 100 (Option.getD (some (95:ℚ)) 50))) →
        ("Critical", "Immediate") =
          (Option.getD (some "Critical") "", Option.getD (some "Immediate") "")) ∧
      ((Option.getD (some "Critical") "", Option.getD (some "Immediate") "") ≠
          get_severity_level_from_score (max 0 (min 100 (Option.getD (some (95:ℚ)) 50))) →
        ("Critical", "Immediate") =
          get_severity_level_from_score (max 0 (min 100 (Option.getD (some (95:ℚ)) 50))))) :=
  C3_reconciliation_precedence none none none none none none none none "raw"
    ⟨some 95, some "Critical", some "Immediate", none, none, none⟩
    { severity_score := 95, severity_level := "Critical",
      triage_assessment := "Assessment completed",
      recommended_service := "Emergency Department - General",
      urgency := "Immediate",
      reasoning := "Assessment based on provided information",
      model_used := "mistral-large-latest" } rfl

/-- Claim C4 as stated is false: for the magnitude 10, which lies in
[0,30), `get_triage_category` returns the merged low branch with urgency
"Low", not a distinct Non-urgent band with urgency "Non-urgent" (and the
action for magnitudes in [30,50), e.g. 40, is the combined
"Consultation programmée ou retour à domicile", not a bare scheduled
consultation distinct from the [0,30) action). -/
theorem C4_counterexample :
    (get_triage_category 10).urgency = "Low" ∧
    (get_triage_category 10).urgency ≠ "Non-urgent" ∧
    get_triage_category 40 = get_triage_category 10 := by decide

/-- Claim C4 (amended): `get_triage_category` is a total function over four
contiguous bands covering [0,100], returning the distinct
(category, urgency, action) triple of the band containing the magnitude;
every magnitude below 50 — both [30,50) and [0,30) — returns the single
"Non urgent" triple with urgency "Low" and action
"Consultation programmée ou retour à domicile" (scheduled consultation or
discharge home). -/
theorem C4_four_bands (m : ℚ) (h0 : 0 ≤ m) (h1 : m ≤ 100) :
    (90 ≤ m → get_triage_category m =
      ⟨"Urgence vitale", "Immediate", "Réanimation immédiate, appel SAMU/réanimation"⟩) ∧
    (70 ≤ m → m < 90 → get_triage_category m =
      ⟨"Urgence majeure", "Urgent", "Hospitalisation en unité de soins continus"⟩) ∧
    (50 ≤ m → m < 70 → get_triage_category m =
      ⟨"Urgence relative", "Moderate", "Consultation en urgence (< 2h)"⟩) ∧
    (m < 50 → get_triage_category m =
      ⟨"Non urgent", "Low", "Consultation programmée ou retour à domicile"⟩) := by
  refine ⟨?_, ?_, ?_, ?_⟩ <;> intros <;> unfold get_triage_category <;>
    split_ifs <;> first | rfl | linarith

/-- Witness for C4 (amended) at magnitude 40: it lies in [0,100] and takes
the merged below-50 triple. -/
theorem C4_witness :
    (0:ℚ) ≤ 40 ∧ (40:ℚ) ≤ 100 ∧
      ((90 ≤ (40:ℚ) → get_triage_category 40 =
        ⟨"Urgence vitale", "Immediate", "Réanimation immédiate, appel SAMU/réanimation"⟩) ∧
       (70 ≤ (40:ℚ) → (40:ℚ) < 90 → get_triage_category 40 =
        ⟨"Urgence majeure", "Urgent", "Hospitalisation en unité de soins continus"⟩) ∧
       (50 ≤ (40:ℚ) → (40:ℚ) < 70 → get_triage_category 40 =
        ⟨"Urgence relative", "Moderate", "Consultation en urgence (< 2h)"⟩) ∧
       ((40:ℚ) < 50 → get_triage_category 40 =
        ⟨"Non urgent", "Low", "Consultation programmée ou retour à domicile"⟩)) :=
  ⟨by decide, by decide, C4_four_bands 40 (by decide) (by decide)⟩

/-- The severity ordering Non-urgent < Low < Moderate < High < Critical on
the (severity_level, urgency) pairs produced by the band mapping. -/
def severity_rank (p : String × String) : ℕ :=
  if p = ("Critical", "Immediate") then 4
  else if p = ("High", "Urgent") then 3
  else if p = ("Moderate", "Moderate") then 2
  else if p = ("Low", "Low") then 1
  else 0

theorem severity_rank_gsl (m : ℚ) :
    severity_rank (get_severity_level_from_score m) =
      if 90 ≤ m then 4 else if 70 ≤ m then 3 else if 50 ≤ m then 2
      else if 30 ≤ m then 1 else 0 := by
  unfold get_severity_level_from_score
  split_ifs <;> rfl

/-- Claim C5: for all magnitudes m1 < m2 in [0,100], the pair returned for
m1 is never more severe than that returned for m2 under the ordering
Non-urgent < Low < Moderate < High < Critical. -/
theorem C5_monotone (m1 m2 : ℚ) (h0 : 0 ≤ m1) (h12 : m1 < m2) (h1 : m2 ≤ 100) :
    severity_rank (get_severity_level_from_score m1) ≤
      severity_rank (get_severity_level_from_score m2) := by
  rw [severity_rank_gsl, severity_rank_gsl]
  split_ifs <;> first | omega | linarith

/-- Witness for C5 at the concrete magnitudes 10 < 95 inside [0,100]. -/
theorem C5_witness :
    (0:ℚ) ≤ 10 ∧ (10:ℚ) < 95 ∧ (95:ℚ) ≤ 100 ∧
      severity_rank (get_severity_level_from_score 10) ≤
        severity_rank (get_severity_level_from_score 95) :=
  ⟨by decide, by decide, by decide,
    C5_monotone 10 95 (by decide) (by decide) (by decide)⟩

/-- Claim C6 as stated is false in one corner: when the collaborator's
response text is empty (and hence unparseable), the fallback's reasoning
field is the fixed string "Error parsing response", not the (empty)
200-character truncation of the raw text. -/
theorem C6_counterexample :
    process_multimodal_triage true none none none none none none none none
        (.respond "" none) =
      .ok { severity_score := 50, severity_level := "Moderate",
            triage_assessment := "Unable to parse AI response. Please review manually.",
            recommended_service := "Emergency Department - General",
            urgency := "Moderate",
            reasoning := "Error parsing response",
            model_used := "mistral-large-latest" } ∧
    "Error parsing response" ≠ String.take "" 200 :=
  ⟨rfl, by decide⟩

/-- Claim C6 (amended): whenever the collaborator's response text is not
parseable as the expected structured payload, `process_multimodal_triage`
recovers locally by returning a default Moderate result (severity 50.0,
severity_level "Moderate", urgency "Moderate") whose reasoning field
carries the response text truncated to at most 200 characters when that
text is nonempty, and the fixed string "Error parsing response" when it is
empty, with the model identifier still recorded; malformed output is never
propagated to the caller as a hard failure. -/
theorem C6_unparseable_fallback
    (text_input : Option String) (file : Option FileUpload)
    (patient_age : Option Int) (patient_gender : Option String)
    (vital_signs medical_history current_medications allergies : Option String)
    (response_text : String) :
    process_multimodal_triage true text_input file patient_age patient_gender
        vital_signs medical_history current_medications allergies
        (.respond response_text none) =
      .ok { severity_score := 50, severity_level := "Moderate",
            triage_assessment := "Unable to parse AI response. Please review manually.",
            recommended_service := "Emergency Department - General",
            urgency := "Moderate",
            reasoning := if response_text ≠ "" then response_text.take 200
                         else "Error parsing response",
            model_used := determine_model (input_type_of file) } := rfl

/-- Claim C7: when no external collaborator is configured,
`process_multimodal_triage` returns, for every possible input, the fixed
response with severity_score 50.0, severity_level "Moderate", urgency
"Moderate", the fixed explanatory narrative and model_used "none", without
inspecting the input content. -/
theorem C7_degraded_mode
    (text_input : Option String) (file : Option FileUpload)
    (patient_age : Option Int) (patient_gender : Option String)
    (vital_signs medical_history current_medications allergies : Option String)
    (outcome : ApiOutcome) :
    process_multimodal_triage false text_input file patient_age patient_gender
        vital_signs medical_history current_medications allergies outcome =
      .ok { severity_score := 50, severity_level := "Moderate",
            triage_assessment := "AI model not configured. Please set MISTRAL_API_KEY environment variable.",
            recommended_service := "Emergency Department - General",
            urgency := "Moderate",
            reasoning := "System awaiting API key configuration",
            model_used := "none" } := rfl

/-- Claim C8: when the parsed candidate payload contains no numeric
severity field, the reconciliation substitutes the documented default 50.0
rather than failing the request, and consequently emits severity_level
"Moderate" and urgency "Moderate". -/
theorem C8_missing_severity_default
    (text_input : Option String) (file : Option FileUpload)
    (patient_age : Option Int) (patient_gender : Option String)
    (vital_signs medical_history current_medications allergies : Option String)
    (response_text : String) (td : TriageData)
    (habsent : td.severity_score = none) (r : TriageResponse)
    (h : process_multimodal_triage true text_input file patient_age
          patient_gender vital_signs medical_history current_medications
          allergies (.respond response_text (some td)) = .ok r) :
    r.severity_score = 50 ∧ r.severity_level = "Moderate" ∧ r.urgency = "Moderate" := by
  simp only [process_multimodal_triage, Bool.not_true, Bool.false_eq_true,
    if_false, Except.ok.injEq] at h
  subst h
  rw [habsent]
  refine ⟨by norm_num, ?_, ?_⟩ <;>
    simp only [Option.getD_none, reconcile_labels_eq] <;>
    rw [show max 0 (min 100 (50:ℚ)) = 50 by norm_num,
      gsl_of_50_70 50 (by norm_num) (by norm_num)]

/-- Witness for C8 at a concrete candidate with no severity field. -/
theorem C8_witness :
    ((⟨none, some "High", some "Urgent", none, none, none⟩ : TriageData).severity_score
        = none) ∧
    ((50:ℚ) = 50 ∧ "Moderate" = "Moderate" ∧ "Moderate" = "Moderate") :=
  ⟨rfl,
    C8_missing_severity_default none none none none none none none none "raw"
      ⟨none, some "High", some "Urgent", none, none, none⟩ rfl
      { severity_score := 50, severity_level := "Moderate",
        triage_assessment := "Assessment completed",
        recommended_service := "Emergency Department - General",
        urgency := "Moderate",
        reasoning := "Assessment based on provided information",
        model_used := "mistral-large-latest" } rfl⟩

/-- Claim C9 concerns a defect in the code: the selection expression
`"pédiatrique" if patient_age and patient_age < 18 else "adulte"` treats a
present age of 0 as falsy, so a newborn (age 0, present and strictly below
18) receives the adult-labeled rendering, contradicting the pediatric
tables the rendering itself documents for infants ("nourrisson").  This
theorem evaluates the embedded code: age 0 yields the adult label and the
very same rendering as an absent age, while ages 1 and 17 yield the
pediatric label and 18 the adult label. -/
theorem C9_age_zero_renders_adult :
    clinical_age_group (some 0) = "adulte" ∧
    clinical_age_group none = "adulte" ∧
    clinical_age_group (some 1) = "pédiatrique" ∧
    clinical_age_group (some 17) = "pédiatrique" ∧
    clinical_age_group (some 18) = "adulte" ∧
    get_clinical_scoring_guidelines (some 0) = get_clinical_scoring_guidelines none :=
  ⟨rfl, rfl, by decide, by decide, by decide, rfl⟩

/-- Claim C10: the sign identifiers of the five per-system tables are
pairwise disjoint (their concatenation has no duplicate key), every listed
weight lies in [0,100], and the merged lookup `ALL_CLINICAL_SIGNS` contains
every (identifier, weight) pair of all five tables with no definition
shadowed by the later-wins merge. -/
theorem C10_registry_disjoint_and_unshadowed :
    (allSignTables.map (fun p => p.1)).Nodup ∧
    (∀ p ∈ allSignTables, p.2 ≤ 100) ∧
    (∀ p ∈ allSignTables, dictLookup ALL_CLINICAL_SIGNS p.1 = some p.2) := by
  refine ⟨by decide, by decide, by decide⟩
